import Mathlib

/-!
Verification of the query interpretation & compilation pipeline of the
clinical-trials search backend.

The definitions below are a shallow embedding of the Python source:
  * `backend/app/utils/synonyms.py`      — valid-value registries
  * `backend/app/models/entities.py`     — `LocationFilter`, `ExtractedEntities`
  * `backend/app/services/llm_service.py`— `_validate_and_normalize`, `extract_entities`
  * `backend/app/services/es_service.py` — `build_query`, the result mapping in `search`
  * `backend/app/services/suggestion.py` — `get_suggestions`
Machine reals (Python floats) are modelled by `Rat`; every constant the
claims mention (0.0, 0.1, 0.3, 0.8, 1.0) is exactly representable.
-/

namespace Vivpro

/-! ### Registry (`backend/app/utils/synonyms.py`) -/

/-- The list `VALID_PHASES` from `synonyms.py` (a frozenset; only membership is used). -/
def VALID_PHASES : List String :=
  ["NA", "PHASE1", "PHASE1/PHASE2", "PHASE2",
   "PHASE2/PHASE3", "PHASE3", "PHASE4", "Phase NA"]

/-- The list `VALID_STATUSES` from `synonyms.py`. -/
def VALID_STATUSES : List String :=
  ["ACTIVE_NOT_RECRUITING", "COMPLETED", "NOT_YET_RECRUITING",
   "RECRUITING", "SUSPENDED", "TERMINATED", "UNKNOWN", "WITHDRAWN"]

/-- The list `VALID_AGE_GROUPS` from `synonyms.py`. -/
def VALID_AGE_GROUPS : List String :=
  ["adult", "older-adults", "child", "adolescent", "infant", "toddler"]

/-! ### Canonical entity structure (`backend/app/models/entities.py`) -/

/-- The `LocationFilter` pydantic model: three independently optional sub-fields. -/
structure LocationFilter where
  city : Option String := none
  state : Option String := none
  country : Option String := none
deriving DecidableEq, Repr

/-- The `ExtractedEntities` pydantic model.  Field constraints (`ge=0` on the
enrollment bounds, `0 ≤ confidence ≤ 1`) are enforced at construction time by
pydantic; here they are enforced by `mkExtractedEntities` below, which models
the `ExtractedEntities(**data)` call, while the bare structure carries the
values. -/
structure ExtractedEntities where
  phase : Option String := none
  condition : Option String := none
  status : Option String := none
  location : Option LocationFilter := none
  sponsor : Option String := none
  keyword : Option String := none
  age_group : Option String := none
  enrollment_min : Option Int := none
  enrollment_max : Option Int := none
  confidence : Rat := { num := 4, den := 5 }
  clarification : Option String := none
deriving DecidableEq, Repr

/-- The pydantic field constraints of `ExtractedEntities`: confidence in
`[0, 1]`, enrollment bounds non-negative when present. -/
def validEntities (e : ExtractedEntities) : Prop :=
  0 ≤ e.confidence ∧ e.confidence ≤ 1
    ∧ (∀ n ∈ e.enrollment_min, 0 ≤ n)
    ∧ (∀ n ∈ e.enrollment_max, 0 ≤ n)

instance (e : ExtractedEntities) : Decidable (validEntities e) := by
  unfold validEntities; infer_instance

/-! ### Parsed LLM reply (`llm_service.py`)

The dict produced by `_parse_json_response`, restricted to the keys the
pipeline reads.  An enrollment value is `some (some n)` when `int(val)`
coerces it to `n`, `some none` when the key is present but the value does not
coerce to an integer, and `none` when the key is absent or null. -/

structure RawData where
  phase : Option String := none
  condition : Option String := none
  status : Option String := none
  location : Option LocationFilter := none
  sponsor : Option String := none
  keyword : Option String := none
  age_group : Option String := none
  enrollment_min : Option (Option Int) := none
  enrollment_max : Option (Option Int) := none
  confidence : Option Rat := none
  clarification : Option String := none
deriving DecidableEq, Repr

/-- Python's `str.strip()`: drop leading and trailing whitespace.  (Defined
over the character list so that it evaluates by kernel reduction.) -/
def pyStrip (s : String) : String :=
  ⟨((s.data.dropWhile Char.isWhitespace).reverse.dropWhile Char.isWhitespace).reverse⟩

/-- Python's `str.lower()` (ASCII case folding, as used on titles here). -/
def pyLower (s : String) : String :=
  ⟨s.data.map Char.toLower⟩

/-- One enum check of `_validate_and_normalize`:
`if data.get(k) and data[k] not in VALID: data[k] = None`.
Note the Python truthiness guard: the empty string is falsy, so an empty
string is never checked against the valid set and passes through unchanged. -/
def normEnum (valid : List String) : Option String → Option String
  | some s => if ¬s.isEmpty ∧ s ∉ valid then none else some s
  | none => none

/-- The location step of `_validate_and_normalize`: drop null sub-fields and
collapse an all-null location object to `None`. -/
def normLocation : Option LocationFilter → Option LocationFilter
  | none => none
  | some l =>
      if l.city = none ∧ l.state = none ∧ l.country = none then none else some l

/-- The enrollment step of `_validate_and_normalize`: `int(val)` coercion,
with coercion failure discarding the field (`data[field] = None`). -/
def normEnroll : Option (Option Int) → Option (Option Int)
  | none => none
  | some none => none
  | some (some n) => some (some n)

/-- The function `_validate_and_normalize` from `llm_service.py`. -/
def validate_and_normalize (d : RawData) : RawData :=
  { d with
    phase := normEnum VALID_PHASES d.phase
    status := normEnum VALID_STATUSES d.status
    age_group := normEnum VALID_AGE_GROUPS d.age_group
    confidence := d.confidence.map (fun c => max 0 (min 1 c))
    location := normLocation d.location
    enrollment_min := normEnroll d.enrollment_min
    enrollment_max := normEnroll d.enrollment_max }

/-- Pydantic validation of one enrollment field at `ExtractedEntities(**data)`:
a present non-integer value or a negative integer raises `ValidationError`. -/
def pydEnroll : Option (Option Int) → Option (Option Int)
  | none => some none
  | some none => none
  | some (some n) => if 0 ≤ n then some (some n) else none

/-- The `ExtractedEntities(**data)` constructor call: pydantic validates the
field constraints and raises (here: `none`) when any is violated; a missing
confidence key takes the default `0.8`. -/
def mkExtractedEntities (d : RawData) : Option ExtractedEntities := do
  let emin ← pydEnroll d.enrollment_min
  let emax ← pydEnroll d.enrollment_max
  let conf := d.confidence.getD { num := 4, den := 5 }
  if 0 ≤ conf ∧ conf ≤ 1 then
    some { phase := d.phase, condition := d.condition, status := d.status,
           location := d.location, sponsor := d.sponsor, keyword := d.keyword,
           age_group := d.age_group, enrollment_min := emin,
           enrollment_max := emax, confidence := conf,
           clarification := d.clarification }
  else none

/-- Outcome of the external extraction call inside the `try` block of
`extract_entities`:
  * `success parsed` — the API replied; `parsed` is `some raw` when one of the
    three parse attempts of `_parse_json_response` succeeds and `none` when
    all fail (`json.JSONDecodeError`);
  * `apiError` — `anthropic.APIError` (timeout, error, unavailable);
  * `unexpectedError` — any other exception raised inside the `try` block. -/
inductive ExtractOutcome where
  | success (parsed : Option RawData)
  | apiError
  | unexpectedError
deriving DecidableEq, Repr

/-- The early return for an empty or whitespace-only query. -/
def emptyQueryFallback : ExtractedEntities :=
  { confidence := { num := 1, den := 10 }
    clarification := some "Please enter a search query about clinical trials." }

/-- The `json.JSONDecodeError` handler's return value. -/
def parseFailureFallback : ExtractedEntities :=
  { confidence := { num := 3, den := 10 }
    clarification := some "I had trouble understanding your query. Could you rephrase it?" }

/-- The `anthropic.APIError` handler's return value. -/
def apiErrorFallback : ExtractedEntities :=
  { confidence := 0
    clarification := some "The search service is temporarily unavailable. Please try again." }

/-- The catch-all `except Exception` handler's return value. -/
def unexpectedErrorFallback : ExtractedEntities :=
  { confidence := 0
    clarification := some "An unexpected error occurred. Please try again." }

/-- The function `extract_entities` from `llm_service.py`, as a function of the query text
and of the outcome of the external call.  The whitespace check
(`if not query or not query.strip()`) happens before any external call, so on
that branch the result does not depend on `outcome`.  On the success path the
parsed data is normalized and the `ExtractedEntities(**data)` construction is
attempted; a pydantic `ValidationError` there is an ordinary exception caught
by the catch-all handler. -/
def extract_entities (query : String) (outcome : ExtractOutcome) : ExtractedEntities :=
  if pyStrip query = "" then emptyQueryFallback
  else
    match outcome with
    | .success none => parseFailureFallback
    | .success (some raw) =>
        match mkExtractedEntities (validate_and_normalize raw) with
        | some e => e
        | none => unexpectedErrorFallback
    | .apiError => apiErrorFallback
    | .unexpectedError => unexpectedErrorFallback

/-! ### Query compiler (`backend/app/services/es_service.py`, `build_query`)

The Python code builds nested `Dict[str, Any]` values; they are embedded as a
small JSON value type. -/

inductive Json where
  | str (s : String)
  | num (n : Int)
  | arr (elems : List Json)
  | obj (fields : List (String × Json))
deriving Repr

mutual

def Json.decEq : (a b : Json) → Decidable (a = b)
  | .str a, .str b =>
      if h : a = b then .isTrue (by rw [h])
      else .isFalse (fun hh => h (Json.str.inj hh))
  | .num a, .num b =>
      if h : a = b then .isTrue (by rw [h])
      else .isFalse (fun hh => h (Json.num.inj hh))
  | .arr a, .arr b =>
      match Json.decEqList a b with
      | .isTrue h => .isTrue (by rw [h])
      | .isFalse h => .isFalse (fun hh => h (Json.arr.inj hh))
  | .obj a, .obj b =>
      match Json.decEqFields a b with
      | .isTrue h => .isTrue (by rw [h])
      | .isFalse h => .isFalse (fun hh => h (Json.obj.inj hh))
  | .str _, .num _ => .isFalse (fun h => Json.noConfusion h)
  | .str _, .arr _ => .isFalse (fun h => Json.noConfusion h)
  | .str _, .obj _ => .isFalse (fun h => Json.noConfusion h)
  | .num _, .str _ => .isFalse (fun h => Json.noConfusion h)
  | .num _, .arr _ => .isFalse (fun h => Json.noConfusion h)
  | .num _, .obj _ => .isFalse (fun h => Json.noConfusion h)
  | .arr _, .str _ => .isFalse (fun h => Json.noConfusion h)
  | .arr _, .num _ => .isFalse (fun h => Json.noConfusion h)
  | .arr _, .obj _ => .isFalse (fun h => Json.noConfusion h)
  | .obj _, .str _ => .isFalse (fun h => Json.noConfusion h)
  | .obj _, .num _ => .isFalse (fun h => Json.noConfusion h)
  | .obj _, .arr _ => .isFalse (fun h => Json.noConfusion h)

def Json.decEqList : (a b : List Json) → Decidable (a = b)
  | [], [] => .isTrue rfl
  | [], _ :: _ => .isFalse (fun h => List.noConfusion h)
  | _ :: _, [] => .isFalse (fun h => List.noConfusion h)
  | x :: xs, y :: ys =>
      match Json.decEq x y with
      | .isFalse h => .isFalse (fun hh => h (List.cons.inj hh).1)
      | .isTrue h1 =>
          match Json.decEqList xs ys with
          | .isTrue h2 => .isTrue (by rw [h1, h2])
          | .isFalse h2 => .isFalse (fun hh => h2 (List.cons.inj hh).2)

def Json.decEqFields : (a b : List (String × Json)) → Decidable (a = b)
  | [], [] => .isTrue rfl
  | [], _ :: _ => .isFalse (fun h => List.noConfusion h)
  | _ :: _, [] => .isFalse (fun h => List.noConfusion h)
  | (k, v) :: xs, (l, w) :: ys =>
      if hk : k = l then
        match Json.decEq v w with
        | .isFalse h =>
            .isFalse (fun hh => h (congrArg Prod.snd (List.cons.inj hh).1))
        | .isTrue h1 =>
            match Json.decEqFields xs ys with
            | .isTrue h2 => .isTrue (by rw [hk, h1, h2])
            | .isFalse h2 => .isFalse (fun hh => h2 (List.cons.inj hh).2)
      else
        .isFalse (fun hh => hk (congrArg Prod.fst (List.cons.inj hh).1))

end

instance : DecidableEq Json := Json.decEq

/-- Python truthiness of an `Optional[str]` field (`if entities.phase:`):
present and non-empty. -/
def truthyStr : Option String → Bool
  | some s => ¬s.isEmpty
  | none => false

/-- The phase filter clause: `{"term": {"phase": <phase>}}`, appended when
`entities.phase` is truthy. -/
def phaseClauses (e : ExtractedEntities) : List Json :=
  match e.phase with
  | some p => if p.isEmpty then [] else [.obj [("term", .obj [("phase", .str p)])]]
  | none => []

/-- The status filter clause: `{"term": {"overall_status": <status>}}`. -/
def statusClauses (e : ExtractedEntities) : List Json :=
  match e.status with
  | some s => if s.isEmpty then [] else [.obj [("term", .obj [("overall_status", .str s)])]]
  | none => []

/-- The condition relevance clause: fuzzy best-fields multi-match over the
title fields and the description. -/
def conditionClauses (e : ExtractedEntities) : List Json :=
  match e.condition with
  | some c =>
      if c.isEmpty then [] else
      [.obj [("multi_match", .obj
        [("query", .str c),
         ("fields", .arr [.str "brief_title^3", .str "official_title^2",
                          .str "brief_summaries_description"]),
         ("type", .str "best_fields"),
         ("fuzziness", .str "AUTO")])]]
  | none => []

/-- The keyword relevance clause: phrase-prefix multi-match over the title
fields, description and detailed description. -/
def keywordClauses (e : ExtractedEntities) : List Json :=
  match e.keyword with
  | some k =>
      if k.isEmpty then [] else
      [.obj [("multi_match", .obj
        [("query", .str k),
         ("fields", .arr [.str "brief_title^2", .str "official_title^2",
                          .str "brief_summaries_description",
                          .str "detailed_description"]),
         ("type", .str "phrase_prefix")])]]
  | none => []

/-- The `location_filters` list built inside `build_query`: one term clause
per truthy sub-field, in source order country, state, city. -/
def location_filters (l : LocationFilter) : List Json :=
  (match l.country with
   | some c => if c.isEmpty then [] else [.obj [("term", .obj [("facilities.country", .str c)])]]
   | none => [])
  ++ (match l.state with
      | some s => if s.isEmpty then [] else [.obj [("term", .obj [("facilities.state", .str s)])]]
      | none => [])
  ++ (match l.city with
      | some c => if c.isEmpty then [] else [.obj [("term", .obj [("facilities.city", .str c)])]]
      | none => [])

/-- The location nested filter clause: present only when `entities.location`
is set (a pydantic model instance is always truthy) and at least one
sub-field term was collected. -/
def locationClauses (e : ExtractedEntities) : List Json :=
  match e.location with
  | some l =>
      let lf := location_filters l
      if lf.isEmpty then []
      else [.obj [("nested", .obj
             [("path", .str "facilities"),
              ("query", .obj [("bool", .obj [("must", .arr lf)])])])]]
  | none => []

/-- The sponsor nested clause:
`{"nested": {"path": "sponsors", "query": {"match": {"sponsors.name": s}}}}`. -/
def sponsorClause (s : String) : Json :=
  .obj [("nested", .obj
    [("path", .str "sponsors"),
     ("query", .obj [("match", .obj [("sponsors.name", .str s)])])])]

/-- Sponsor clause list: appended to the filter list when truthy. -/
def sponsorClauses (e : ExtractedEntities) : List Json :=
  match e.sponsor with
  | some s => if s.isEmpty then [] else [sponsorClause s]
  | none => []

/-- The age-group nested clause. -/
def ageClauses (e : ExtractedEntities) : List Json :=
  match e.age_group with
  | some a =>
      if a.isEmpty then [] else
      [.obj [("nested", .obj
        [("path", .str "age"),
         ("query", .obj [("term", .obj [("age.age_category", .str a)])])])]]
  | none => []

/-- The single range clause over `enrollment` with `gte`/`lte` populated for
exactly the bounds that are present. -/
def rangeClause (emin emax : Option Int) : Json :=
  .obj [("range", .obj [("enrollment", .obj
    ((match emin with | some n => [("gte", Json.num n)] | none => [])
     ++ (match emax with | some n => [("lte", Json.num n)] | none => [])))])]

/-- The enrollment-range part of the filter list: one range clause when at
least one bound is present (`is not None`), nothing otherwise. -/
def rangeClauses (e : ExtractedEntities) : List Json :=
  if e.enrollment_min.isSome || e.enrollment_max.isSome then
    [rangeClause e.enrollment_min e.enrollment_max]
  else []

/-- The `must_clauses` list of `build_query`, in source append order. -/
def must_clauses (e : ExtractedEntities) : List Json :=
  conditionClauses e ++ keywordClauses e

/-- The `filter_clauses` list of `build_query`, in source append order. -/
def filter_clauses (e : ExtractedEntities) : List Json :=
  phaseClauses e ++ statusClauses e ++ locationClauses e
    ++ sponsorClauses e ++ ageClauses e ++ rangeClauses e

/-- The match-everything query `{"match_all": {}}`. -/
def matchAllQuery : Json := .obj [("match_all", .obj [])]

/-- The method `build_query` from `es_service.py`: collapse to match-everything when both
clause lists are empty, otherwise a bool query with the non-empty lists. -/
def build_query (e : ExtractedEntities) : Json :=
  if (must_clauses e).isEmpty && (filter_clauses e).isEmpty then matchAllQuery
  else
    .obj [("bool", .obj
      ((if (must_clauses e).isEmpty then [] else [("must", Json.arr (must_clauses e))])
       ++ (if (filter_clauses e).isEmpty then [] else [("filter", Json.arr (filter_clauses e))])))]

/-! ### Result mapper (`es_service.py`, the hit loop of `search`, and
`backend/app/models/schemas.py`) -/

/-- The `Sponsor` pydantic model: `name` required. -/
structure Sponsor where
  name : String
  agency_class : Option String := none
  lead_or_collaborator : Option String := none
deriving DecidableEq, Repr

/-- The `Facility` pydantic model: every field optional. -/
structure Facility where
  name : Option String := none
  city : Option String := none
  state : Option String := none
  zip : Option String := none
  country : Option String := none
  status : Option String := none
deriving DecidableEq, Repr

/-- The `AgeCategory` pydantic model. -/
structure AgeCategory where
  age_category : String
deriving DecidableEq, Repr

/-- The `TrialResult` pydantic model from `schemas.py`: `nct_id` and `brief_title`
required, every other field optional with a default. -/
structure TrialResult where
  nct_id : String
  brief_title : String
  official_title : Option String := none
  phase : Option String := none
  overall_status : Option String := none
  enrollment : Option Int := none
  sponsors : List Sponsor := []
  facilities : List Facility := []
  conditions : List (List (String × String)) := []
  brief_summaries_description : Option String := none
  start_date : Option String := none
  completion_date : Option String := none
  age : List AgeCategory := []
  gender : Option String := none
  study_type : Option String := none
  source : Option String := none
deriving DecidableEq, Repr

/-- One raw hit's `_source` document, restricted to the fields the mapper
reads; `none` marks a field missing from the document. -/
structure RawHit where
  nct_id : Option String := none
  brief_title : Option String := none
  official_title : Option String := none
  phase : Option String := none
  overall_status : Option String := none
  enrollment : Option Int := none
  sponsors : Option (List Sponsor) := none
  facilities : Option (List Facility) := none
  conditions : Option (List (List (String × String))) := none
  brief_summaries_description : Option String := none
  start_date : Option String := none
  completion_date : Option String := none
  age : Option (List AgeCategory) := none
  gender : Option String := none
  study_type : Option String := none
  source : Option String := none
deriving DecidableEq, Repr

/-- The body of the hit loop in `ElasticsearchService.search`: the required
fields are read with `source["nct_id"]` / `source["brief_title"]` (a missing
key raises `KeyError`, modelled as `none`); every optional field is read with
`source.get(...)`, collections defaulting to `[]`; facilities are truncated
with `[:3]`. -/
def mapHit (src : RawHit) : Option TrialResult := do
  let nct ← src.nct_id
  let bt ← src.brief_title
  pure { nct_id := nct
         brief_title := bt
         official_title := src.official_title
         phase := src.phase
         overall_status := src.overall_status
         enrollment := src.enrollment
         sponsors := src.sponsors.getD []
         facilities := (src.facilities.getD []).take 3
         conditions := src.conditions.getD []
         brief_summaries_description := src.brief_summaries_description
         start_date := src.start_date
         completion_date := src.completion_date
         age := src.age.getD []
         gender := src.gender
         study_type := src.study_type
         source := src.source }

/-- The whole hit loop of `search`: maps each hit in order; a `KeyError` on
any hit aborts the loop and propagates to the caller. -/
def mapHits : List RawHit → Option (List TrialResult)
  | [] => some []
  | h :: rest => do
      let r ← mapHit h
      let rs ← mapHits rest
      pure (r :: rs)

/-! ### Suggestion pipeline (`backend/app/services/suggestion.py`) -/

def MIN_PREFIX_LENGTH : Nat := 2

/-- The de-duplication loop of `get_suggestions`: walks the hit titles in
engine order, keeps a title when its lower-cased key is non-empty and unseen,
and records the key in `seen`.  Returns the accumulated suggestions and the
final `seen` set (modelled as a list with membership semantics). -/
def suggestLoop : List String → List String → List String → List String × List String
  | [], seen, acc => (acc, seen)
  | title :: rest, seen, acc =>
      let key := pyLower title
      if ¬key.isEmpty ∧ ¬seen.contains key then
        suggestLoop rest (key :: seen) (acc ++ [title])
      else
        suggestLoop rest seen acc

/-- The method `SuggestionService.get_suggestions`, as a function of the trimmed prefix,
the limit, and the `brief_title` values of the primary and fallback engine
replies (a hit missing its title yields `""` via `.get("brief_title", "")`).
The fallback list is consulted only when the primary pass produced nothing;
the final `[:limit]` truncation happens after de-duplication. -/
def get_suggestions (pfx : String) (limit : Nat)
    (primaryTitles fallbackTitles : List String) : List String :=
  if (pyStrip pfx).length < MIN_PREFIX_LENGTH then []
  else
    let p := suggestLoop primaryTitles [] []
    let s2 := if p.1.isEmpty then (suggestLoop fallbackTitles p.2 p.1).1 else p.1
    s2.take limit

/-- The pipeline `get_suggestions` without the final `[:limit]` truncation; used to state
that truncation happens after de-duplication. -/
def suggest_all (pfx : String) (primaryTitles fallbackTitles : List String) : List String :=
  if (pyStrip pfx).length < MIN_PREFIX_LENGTH then []
  else
    let p := suggestLoop primaryTitles [] []
    if p.1.isEmpty then (suggestLoop fallbackTitles p.2 p.1).1 else p.1

/-- Accumulator-free form of the de-duplication loop, for reasoning. -/
def dedupBy (seen : List String) : List String → List String
  | [] => []
  | title :: rest =>
      let key := pyLower title
      if ¬key.isEmpty ∧ ¬seen.contains key then
        title :: dedupBy (key :: seen) rest
      else
        dedupBy seen rest

/-! ## Theorems -/

/-- All nine query-relevant fields of the canonical structure are absent. -/
def allQueryFieldsAbsent (e : ExtractedEntities) : Prop :=
  e.phase = none ∧ e.condition = none ∧ e.status = none ∧ e.location = none
    ∧ e.sponsor = none ∧ e.keyword = none ∧ e.age_group = none
    ∧ e.enrollment_min = none ∧ e.enrollment_max = none

/-- C2: with every field absent, `build_query` returns exactly the
match-everything query; more generally, whenever both the must list and the
filter list are empty the result collapses to match-everything, and
`build_query` never emits an empty boolean wrapper. -/
theorem build_query_empty_collapse :
    (∀ e, allQueryFieldsAbsent e → build_query e = matchAllQuery)
    ∧ (∀ e, must_clauses e = [] → filter_clauses e = [] → build_query e = matchAllQuery)
    ∧ (∀ e, build_query e ≠ Json.obj [("bool", Json.obj [])]) := by
  refine ⟨?_, ?_, ?_⟩
  · rintro e ⟨h1, h2, h3, h4, h5, h6, h7, h8, h9⟩
    simp [build_query, must_clauses, filter_clauses, phaseClauses, statusClauses,
      conditionClauses, keywordClauses, locationClauses, sponsorClauses, ageClauses,
      rangeClauses, h1, h2, h3, h4, h5, h6, h7, h8, h9]
  · intro e h1 h2
    simp [build_query, h1, h2]
  · intro e
    unfold build_query
    split
    · simp [matchAllQuery]
    · rename_i hcond
      intro h
      simp only [Json.obj.injEq, List.cons.injEq, Prod.mk.injEq, true_and, and_true] at h
      rcases List.append_eq_nil.mp h with ⟨hm, hf⟩
      split at hm
      · split at hf
        · rename_i hm' hf'
          simp [hm', hf'] at hcond
        · exact absurd hf (by simp)
      · exact absurd hm (by simp)

/-- C2 witness. -/
theorem build_query_empty_collapse_witness :
    build_query {} = matchAllQuery :=
  build_query_empty_collapse.1 {} ⟨rfl, rfl, rfl, rfl, rfl, rfl, rfl, rfl, rfl⟩

/-- C3 counterexample: the empty string is a phase value outside
`VALID_PHASES`, yet normalization keeps it (Python's truthiness guard
`if data.get("phase")` skips falsy values), so it is not set to absent. -/
theorem normalize_enum_claim_cex :
    "" ∉ VALID_PHASES
    ∧ (validate_and_normalize { phase := some "" }).phase = some "" := by
  constructor
  · decide
  · rfl

/-- C3 (amended): normalization of phase/status/age_group is the identity on
every value in the corresponding valid set, and yields absent for every
*non-empty* value outside it; an empty-string value is kept unchanged because
the truthiness guard skips it. -/
theorem normalize_enum_amended :
    (∀ (d : RawData) p, d.phase = some p →
        (p ∈ VALID_PHASES → (validate_and_normalize d).phase = some p)
        ∧ (p ∉ VALID_PHASES → ¬p.isEmpty → (validate_and_normalize d).phase = none)
        ∧ (p.isEmpty → (validate_and_normalize d).phase = some p))
    ∧ (∀ (d : RawData) s, d.status = some s →
        (s ∈ VALID_STATUSES → (validate_and_normalize d).status = some s)
        ∧ (s ∉ VALID_STATUSES → ¬s.isEmpty → (validate_and_normalize d).status = none)
        ∧ (s.isEmpty → (validate_and_normalize d).status = some s))
    ∧ (∀ (d : RawData) a, d.age_group = some a →
        (a ∈ VALID_AGE_GROUPS → (validate_and_normalize d).age_group = some a)
        ∧ (a ∉ VALID_AGE_GROUPS → ¬a.isEmpty → (validate_and_normalize d).age_group = none)
        ∧ (a.isEmpty → (validate_and_normalize d).age_group = some a)) := by
  refine ⟨?_, ?_, ?_⟩ <;>
  · intro d v hv
    refine ⟨fun hmem => ?_, fun hmem hne => ?_, fun he => ?_⟩
    · simp [validate_and_normalize, normEnum, hv, hmem]
    · rw [Bool.not_eq_true] at hne
      simp [validate_and_normalize, normEnum, hv, hmem, hne]
    · simp [validate_and_normalize, normEnum, hv, he]

/-- C3 (amended) witness. -/
theorem normalize_enum_amended_witness :
    (validate_and_normalize { phase := some "PHASE2" }).phase = some "PHASE2"
    ∧ (validate_and_normalize { phase := some "PHASE9" }).phase = none :=
  ⟨(normalize_enum_amended.1 { phase := some "PHASE2" } "PHASE2" rfl).1 (by decide),
   (normalize_enum_amended.1 { phase := some "PHASE9" } "PHASE9" rfl).2.1
      (by decide) (by decide)⟩

/-! Shape lemmas: every clause a given compiler part can emit has a fixed
top-level key, which separates the clause families from each other. -/

theorem mem_phaseClauses {e : ExtractedEntities} {x : Json} (h : x ∈ phaseClauses e) :
    ∃ p, x = Json.obj [("term", Json.obj [("phase", Json.str p)])] := by
  unfold phaseClauses at h
  cases hp : e.phase with
  | none => rw [hp] at h; simp at h
  | some p =>
      rw [hp] at h
      simp at h
      exact ⟨p, h.2⟩

theorem mem_statusClauses {e : ExtractedEntities} {x : Json} (h : x ∈ statusClauses e) :
    ∃ s, x = Json.obj [("term", Json.obj [("overall_status", Json.str s)])] := by
  unfold statusClauses at h
  cases hp : e.status with
  | none => rw [hp] at h; simp at h
  | some s =>
      rw [hp] at h
      simp at h
      exact ⟨s, h.2⟩

theorem mem_locationClauses {e : ExtractedEntities} {x : Json} (h : x ∈ locationClauses e) :
    ∃ lf, x = Json.obj [("nested", Json.obj
      [("path", Json.str "facilities"),
       ("query", Json.obj [("bool", Json.obj [("must", Json.arr lf)])])])] := by
  unfold locationClauses at h
  cases hp : e.location with
  | none => rw [hp] at h; simp at h
  | some l =>
      rw [hp] at h
      simp only at h
      split at h
      · simp at h
      · simp at h; exact ⟨location_filters l, h⟩

theorem mem_sponsorClauses {e : ExtractedEntities} {x : Json} (h : x ∈ sponsorClauses e) :
    ∃ s, x = sponsorClause s := by
  unfold sponsorClauses at h
  cases hp : e.sponsor with
  | none => rw [hp] at h; simp at h
  | some s =>
      rw [hp] at h
      simp at h
      exact ⟨s, h.2⟩

theorem mem_ageClauses {e : ExtractedEntities} {x : Json} (h : x ∈ ageClauses e) :
    ∃ a, x = Json.obj [("nested", Json.obj
      [("path", Json.str "age"),
       ("query", Json.obj [("term", Json.obj [("age.age_category", Json.str a)])])])] := by
  unfold ageClauses at h
  cases hp : e.age_group with
  | none => rw [hp] at h; simp at h
  | some a =>
      rw [hp] at h
      simp at h
      exact ⟨a, h.2⟩

theorem mem_rangeClauses {e : ExtractedEntities} {x : Json} (h : x ∈ rangeClauses e) :
    x = rangeClause e.enrollment_min e.enrollment_max := by
  unfold rangeClauses at h
  split at h
  · simp at h; exact h
  · simp at h

theorem mem_must_clauses {e : ExtractedEntities} {x : Json} (h : x ∈ must_clauses e) :
    ∃ fs, x = Json.obj [("multi_match", Json.obj fs)] := by
  unfold must_clauses at h
  rcases List.mem_append.mp h with h | h
  · unfold conditionClauses at h
    cases hp : e.condition with
    | none => rw [hp] at h; simp at h
    | some c =>
        rw [hp] at h
        simp at h
        exact ⟨_, h.2⟩
  · unfold keywordClauses at h
    cases hp : e.keyword with
    | none => rw [hp] at h; simp at h
    | some k =>
        rw [hp] at h
        simp at h
        exact ⟨_, h.2⟩

/-- C4 counterexample: a canonical structure with only `sponsor` set compiles
to a bool query whose `filter` list holds the nested sponsor clause and whose
`must` list is empty — the nested sponsor match is *not* placed in the must
list as the claim states. -/
theorem sponsor_clause_claim_cex :
    must_clauses { sponsor := some "Pfizer" } = []
    ∧ filter_clauses { sponsor := some "Pfizer" } = [sponsorClause "Pfizer"]
    ∧ build_query { sponsor := some "Pfizer" }
        = Json.obj [("bool", Json.obj [("filter", Json.arr [sponsorClause "Pfizer"])])] := by
  refine ⟨rfl, rfl, rfl⟩

/-- C4 (amended): for every canonical structure with sponsor set (non-empty),
the compiler emits exactly one nested sub-document clause over the sponsors
collection whose inner query is a match on the sponsor name, and the clause
is placed in the `filter` list of the assembled boolean query, not in the
`must` list. -/
theorem sponsor_clause_amended :
    ∀ e s, e.sponsor = some s → ¬s.isEmpty →
      (filter_clauses e).countP (fun c => c == sponsorClause s) = 1
      ∧ sponsorClause s ∉ must_clauses e := by
  intro e s hs hne
  rw [Bool.not_eq_true] at hne
  constructor
  · unfold filter_clauses
    rw [List.countP_append, List.countP_append, List.countP_append,
        List.countP_append, List.countP_append]
    have h1 : (phaseClauses e).countP (fun c => c == sponsorClause s) = 0 := by
      rw [List.countP_eq_zero]
      intro x hx
      obtain ⟨p, rfl⟩ := mem_phaseClauses hx
      simp [sponsorClause]
    have h2 : (statusClauses e).countP (fun c => c == sponsorClause s) = 0 := by
      rw [List.countP_eq_zero]
      intro x hx
      obtain ⟨p, rfl⟩ := mem_statusClauses hx
      simp [sponsorClause]
    have h3 : (locationClauses e).countP (fun c => c == sponsorClause s) = 0 := by
      rw [List.countP_eq_zero]
      intro x hx
      obtain ⟨lf, rfl⟩ := mem_locationClauses hx
      simp [sponsorClause]
    have h4 : (sponsorClauses e).countP (fun c => c == sponsorClause s) = 1 := by
      unfold sponsorClauses
      rw [hs]
      simp [hne]
    have h5 : (ageClauses e).countP (fun c => c == sponsorClause s) = 0 := by
      rw [List.countP_eq_zero]
      intro x hx
      obtain ⟨a, rfl⟩ := mem_ageClauses hx
      simp [sponsorClause]
    have h6 : (rangeClauses e).countP (fun c => c == sponsorClause s) = 0 := by
      rw [List.countP_eq_zero]
      intro x hx
      rw [mem_rangeClauses hx]
      simp [sponsorClause, rangeClause]
    rw [h1, h2, h3, h4, h5, h6]
  · intro hmem
    obtain ⟨fs, hx⟩ := mem_must_clauses hmem
    simp [sponsorClause] at hx

/-- C4 (amended) witness. -/
theorem sponsor_clause_amended_witness :
    (filter_clauses { sponsor := some "Pfizer", condition := some "Asthma" }).countP
        (fun c => c == sponsorClause "Pfizer") = 1
    ∧ sponsorClause "Pfizer" ∉ must_clauses { sponsor := some "Pfizer", condition := some "Asthma" } :=
  sponsor_clause_amended { sponsor := some "Pfizer", condition := some "Asthma" }
    "Pfizer" rfl (by decide)

/-- Recognizes a clause whose top-level key is `"range"`. -/
def isRangeClause : Json → Bool
  | .obj (("range", _) :: _) => true
  | _ => false

/-- C7: whenever at least one enrollment bound is present the filter list
holds exactly one range clause, namely the one over `enrollment` whose `gte`
is present iff the minimum is (with its value) and whose `lte` is present iff
the maximum is (with its value); the two spec examples compile as stated, and
`min ≤ max` is never required — reversed bounds are emitted as given, neither
swapped nor rejected. -/
theorem enrollment_range_clause :
    (∀ e, e.enrollment_min.isSome ∨ e.enrollment_max.isSome →
        (filter_clauses e).countP isRangeClause = 1
        ∧ rangeClause e.enrollment_min e.enrollment_max ∈ filter_clauses e)
    ∧ (∀ a b, rangeClause (some a) (some b)
        = Json.obj [("range", Json.obj [("enrollment",
            Json.obj [("gte", Json.num a), ("lte", Json.num b)])])])
    ∧ (∀ a, rangeClause (some a) none
        = Json.obj [("range", Json.obj [("enrollment", Json.obj [("gte", Json.num a)])])])
    ∧ (∀ b, rangeClause none (some b)
        = Json.obj [("range", Json.obj [("enrollment", Json.obj [("lte", Json.num b)])])])
    ∧ rangeClauses { enrollment_min := some 50, enrollment_max := some 200 }
        = [Json.obj [("range", Json.obj [("enrollment",
            Json.obj [("gte", Json.num 50), ("lte", Json.num 200)])])]]
    ∧ rangeClauses { enrollment_min := some 100 }
        = [Json.obj [("range", Json.obj [("enrollment", Json.obj [("gte", Json.num 100)])])]]
    ∧ rangeClauses { enrollment_min := some 200, enrollment_max := some 50 }
        = [Json.obj [("range", Json.obj [("enrollment",
            Json.obj [("gte", Json.num 200), ("lte", Json.num 50)])])]] := by
  refine ⟨?_, fun a b => rfl, fun a => rfl, fun b => rfl, rfl, rfl, rfl⟩
  intro e hsome
  have hrange : rangeClauses e = [rangeClause e.enrollment_min e.enrollment_max] := by
    unfold rangeClauses
    rcases hsome with h | h <;> simp [h]
  constructor
  · unfold filter_clauses
    rw [List.countP_append, List.countP_append, List.countP_append,
        List.countP_append, List.countP_append]
    have h1 : (phaseClauses e).countP isRangeClause = 0 := by
      rw [List.countP_eq_zero]
      intro x hx
      obtain ⟨p, rfl⟩ := mem_phaseClauses hx
      simp [isRangeClause]
    have h2 : (statusClauses e).countP isRangeClause = 0 := by
      rw [List.countP_eq_zero]
      intro x hx
      obtain ⟨p, rfl⟩ := mem_statusClauses hx
      simp [isRangeClause]
    have h3 : (locationClauses e).countP isRangeClause = 0 := by
      rw [List.countP_eq_zero]
      intro x hx
      obtain ⟨lf, rfl⟩ := mem_locationClauses hx
      simp [isRangeClause]
    have h4 : (sponsorClauses e).countP isRangeClause = 0 := by
      rw [List.countP_eq_zero]
      intro x hx
      obtain ⟨s, rfl⟩ := mem_sponsorClauses hx
      simp [isRangeClause, sponsorClause]
    have h5 : (ageClauses e).countP isRangeClause = 0 := by
      rw [List.countP_eq_zero]
      intro x hx
      obtain ⟨a, rfl⟩ := mem_ageClauses hx
      simp [isRangeClause]
    have h6 : (rangeClauses e).countP isRangeClause = 1 := by
      rw [hrange]
      simp [isRangeClause, rangeClause]
    rw [h1, h2, h3, h4, h5, h6]
  · unfold filter_clauses
    rw [hrange]
    simp

/-- C7 witness (bounds 200 > 50 deliberately reversed: still one clause). -/
theorem enrollment_range_clause_witness :
    (filter_clauses { enrollment_min := some 200, enrollment_max := some 50 }).countP
        isRangeClause = 1
    ∧ rangeClause (some 200) (some 50)
        ∈ filter_clauses { enrollment_min := some 200, enrollment_max := some 50 } :=
  enrollment_range_clause.1 { enrollment_min := some 200, enrollment_max := some 50 }
    (Or.inl rfl)

/-- C5: a location filter whose three sub-fields are all absent is collapsed
to absent by normalization; a canonical structure whose only set field is
such an empty location filter still compiles to the match-everything query
(the compiler adds no clause when no sub-field term was collected); and every
term ANDed inside the nested facilities query comes from a sub-field that is
actually present (and non-empty). -/
theorem empty_location_collapse :
    (∀ (d : RawData) l, d.location = some l →
        l.city = none → l.state = none → l.country = none →
        (validate_and_normalize d).location = none)
    ∧ (∀ e, e.phase = none → e.condition = none → e.status = none →
        e.sponsor = none → e.keyword = none → e.age_group = none →
        e.enrollment_min = none → e.enrollment_max = none →
        e.location = some { city := none, state := none, country := none } →
        build_query e = matchAllQuery)
    ∧ (∀ (l : LocationFilter) x, x ∈ location_filters l →
        (∃ c, ¬c.isEmpty ∧ l.country = some c
            ∧ x = Json.obj [("term", Json.obj [("facilities.country", Json.str c)])])
        ∨ (∃ s, ¬s.isEmpty ∧ l.state = some s
            ∧ x = Json.obj [("term", Json.obj [("facilities.state", Json.str s)])])
        ∨ (∃ c, ¬c.isEmpty ∧ l.city = some c
            ∧ x = Json.obj [("term", Json.obj [("facilities.city", Json.str c)])])) := by
  refine ⟨?_, ?_, ?_⟩
  · intro d l hloc hc hs hco
    simp [validate_and_normalize, normLocation, hloc, hc, hs, hco]
  · intro e h1 h2 h3 h4 h5 h6 h7 h8 hloc
    simp [build_query, must_clauses, filter_clauses, phaseClauses, statusClauses,
      conditionClauses, keywordClauses, locationClauses, sponsorClauses, ageClauses,
      rangeClauses, location_filters, h1, h2, h3, h4, h5, h6, h7, h8, hloc]
  · intro l x hx
    unfold location_filters at hx
    rcases List.mem_append.mp hx with hx' | hcity
    · rcases List.mem_append.mp hx' with hcountry | hstate
      · left
        cases hc : l.country with
        | none => rw [hc] at hcountry; simp at hcountry
        | some c =>
            rw [hc] at hcountry
            simp at hcountry
            exact ⟨c, by simp [hcountry.1], rfl, hcountry.2⟩
      · right; left
        cases hs : l.state with
        | none => rw [hs] at hstate; simp at hstate
        | some s =>
            rw [hs] at hstate
            simp at hstate
            exact ⟨s, by simp [hstate.1], rfl, hstate.2⟩
    · right; right
      cases hc : l.city with
      | none => rw [hc] at hcity; simp at hcity
      | some c =>
          rw [hc] at hcity
          simp at hcity
          exact ⟨c, by simp [hcity.1], rfl, hcity.2⟩

/-- C5 witness. -/
theorem empty_location_collapse_witness :
    (validate_and_normalize { location := some {}, condition := some "Asthma" }).location = none
    ∧ build_query { location := some {} } = matchAllQuery :=
  ⟨empty_location_collapse.1 { location := some {}, condition := some "Asthma" } {}
      rfl rfl rfl rfl,
   empty_location_collapse.2.1 { location := some {} }
      rfl rfl rfl rfl rfl rfl rfl rfl rfl⟩

/-- C6: the mapper errors (propagates, rather than defaults) exactly when a
required field (`nct_id`, `brief_title`) is missing from the raw hit; every
optional scalar defaults to absent and every missing nested collection to the
empty list; and one failing hit aborts the whole hit loop, surfacing the
error to the caller. -/
theorem mapper_required_optional_fields :
    (∀ x, mapHit x = none ↔ (x.nct_id = none ∨ x.brief_title = none))
    ∧ (∀ x r, mapHit x = some r →
        r.official_title = x.official_title ∧ r.phase = x.phase
        ∧ r.overall_status = x.overall_status ∧ r.enrollment = x.enrollment
        ∧ r.sponsors = x.sponsors.getD [] ∧ r.facilities = (x.facilities.getD []).take 3
        ∧ r.conditions = x.conditions.getD []
        ∧ r.brief_summaries_description = x.brief_summaries_description
        ∧ r.start_date = x.start_date ∧ r.completion_date = x.completion_date
        ∧ r.age = x.age.getD [] ∧ r.gender = x.gender
        ∧ r.study_type = x.study_type ∧ r.source = x.source)
    ∧ (∀ hits x, x ∈ hits → mapHit x = none → mapHits hits = none) := by
  refine ⟨?_, ?_, ?_⟩
  · intro x
    cases hn : x.nct_id <;> cases hb : x.brief_title <;>
      simp [mapHit, hn, hb]
  · intro x r hmap
    cases hn : x.nct_id with
    | none => simp [mapHit, hn] at hmap
    | some nct =>
        cases hb : x.brief_title with
        | none => simp [mapHit, hn, hb] at hmap
        | some bt =>
            simp [mapHit, hn, hb] at hmap
            subst hmap
            simp
  · intro hits
    induction hits with
    | nil => intro x hx; simp at hx
    | cons y ys ih =>
        intro x hx hnone
        rcases List.mem_cons.mp hx with rfl | hx'
        · simp [mapHits, hnone]
        · cases hy : mapHit y with
          | none => simp [mapHits, hy]
          | some r => simp [mapHits, hy, ih x hx' hnone]

/-- C6 witness. -/
theorem mapper_required_optional_fields_witness :
    (mapHit { brief_title := some "T" } = none
      ↔ (({ brief_title := some "T" } : RawHit).nct_id = none
          ∨ ({ brief_title := some "T" } : RawHit).brief_title = none))
    ∧ mapHits [{ brief_title := some "T" }] = none :=
  ⟨mapper_required_optional_fields.1 { brief_title := some "T" },
   mapper_required_optional_fields.2.2 [{ brief_title := some "T" }]
      { brief_title := some "T" } (List.mem_singleton.mpr rfl) (by decide)⟩

/-- C9: the mapped record exposes exactly the first three facility entries in
engine order — `take 3` of the raw list, no re-sorting — so a hit with more
than three facility entries maps to exactly three. -/
theorem facilities_truncation :
    ∀ x l r, x.facilities = some l → mapHit x = some r →
      r.facilities = l.take 3
      ∧ (3 ≤ l.length → r.facilities.length = 3) := by
  intro x l r hfac hmap
  cases hn : x.nct_id with
  | none => simp [mapHit, hn] at hmap
  | some nct =>
      cases hb : x.brief_title with
      | none => simp [mapHit, hn, hb] at hmap
      | some bt =>
          simp [mapHit, hn, hb] at hmap
          subst hmap
          refine ⟨by simp [hfac], ?_⟩
          intro hlen
          simp [hfac]
          omega

/-- A raw hit with four facility entries, for the C9 witness. -/
def fourFacilityHit : RawHit :=
  { nct_id := some "NCT1"
    brief_title := some "T"
    facilities := some [{ name := some "a" }, { name := some "b" },
                        { name := some "c" }, { name := some "d" }] }

/-- The record `fourFacilityHit` maps to, for the C9 witness. -/
def fourFacilityResult : TrialResult :=
  { nct_id := "NCT1"
    brief_title := "T"
    facilities := [{ name := some "a" }, { name := some "b" }, { name := some "c" }] }

/-- C9 witness: a hit with 4 facility entries maps to exactly the first 3. -/
theorem facilities_truncation_witness :
    fourFacilityResult.facilities
      = [{ name := some "a" }, { name := some "b" },
         { name := some "c" }, { name := some "d" }].take 3
    ∧ fourFacilityResult.facilities.length = 3 := by
  have h := facilities_truncation fourFacilityHit
    [{ name := some "a" }, { name := some "b" }, { name := some "c" }, { name := some "d" }]
    fourFacilityResult rfl (by decide)
  exact ⟨h.1, h.2 (by decide)⟩

/-- The de-duplication loop appends to its accumulator exactly the
`dedupBy`-filtered titles. -/
theorem suggestLoop_fst (hits : List String) :
    ∀ seen acc, (suggestLoop hits seen acc).1 = acc ++ dedupBy seen hits := by
  induction hits with
  | nil => intro seen acc; simp [suggestLoop, dedupBy]
  | cons t rest ih =>
      intro seen acc
      by_cases hcond : ¬(pyLower t).isEmpty ∧ ¬seen.contains (pyLower t)
      · simp only [suggestLoop, dedupBy, if_pos hcond]
        rw [ih]
        simp
      · simp only [suggestLoop, dedupBy, if_neg hcond]
        exact ih seen acc

/-- When the loop kept nothing, the seen set is unchanged. -/
theorem suggestLoop_snd_of_dedup_nil (hits : List String) :
    ∀ seen acc, dedupBy seen hits = [] → (suggestLoop hits seen acc).2 = seen := by
  induction hits with
  | nil => intro seen acc _; simp [suggestLoop]
  | cons t rest ih =>
      intro seen acc hnil
      by_cases hcond : ¬(pyLower t).isEmpty ∧ ¬seen.contains (pyLower t)
      · simp only [dedupBy, if_pos hcond] at hnil
        cases hnil
      · simp only [dedupBy, if_neg hcond] at hnil
        simp only [suggestLoop, if_neg hcond]
        exact ih seen acc hnil

/-- De-duplication only deletes: the result is a sublist of the input, so the
engine's relevance order of the survivors is preserved. -/
theorem dedupBy_sublist : ∀ (l seen : List String), List.Sublist (dedupBy seen l) l := by
  intro l
  induction l with
  | nil => intro seen; simp [dedupBy]
  | cons t rest ih =>
      intro seen
      by_cases hcond : ¬(pyLower t).isEmpty ∧ ¬seen.contains (pyLower t)
      · simp only [dedupBy, if_pos hcond]
        exact List.Sublist.cons₂ t (ih _)
      · simp only [dedupBy, if_neg hcond]
        exact List.Sublist.cons t (ih seen)

/-- First-occurrence semantics: among the titles sharing one non-empty
lower-cased key, de-duplication keeps exactly the first (none if the key was
already seen). -/
theorem dedupBy_filter (k : String) (hk : ¬k.isEmpty) :
    ∀ (l seen : List String),
      (dedupBy seen l).filter (fun t => pyLower t == k)
        = if seen.contains k then [] else (l.filter (fun t => pyLower t == k)).take 1 := by
  intro l
  induction l with
  | nil =>
      intro seen
      cases hc : seen.contains k <;> simp [dedupBy, hc]
  | cons t rest ih =>
      intro seen
      by_cases hcond : ¬(pyLower t).isEmpty ∧ ¬seen.contains (pyLower t)
      · simp only [dedupBy, if_pos hcond]
        by_cases hkey : pyLower t = k
        · subst hkey
          rw [List.filter_cons_of_pos (by simp)]
          rw [ih (pyLower t :: seen)]
          rw [if_pos (by simp)]
          rw [if_neg (by simpa using hcond.2)]
          rw [List.filter_cons_of_pos (by simp)]
          simp
        · rw [List.filter_cons_of_neg (by simp [hkey])]
          rw [ih (pyLower t :: seen)]
          rw [List.filter_cons_of_neg (by simp [hkey])]
          have hbne : (k == pyLower t) = false :=
            beq_eq_false_iff_ne.mpr (fun h => hkey h.symm)
          have : (pyLower t :: seen).contains k = seen.contains k := by
            simp only [List.contains_cons, hbne, Bool.false_or]
          rw [this]
      · simp only [dedupBy, if_neg hcond]
        rw [ih seen]
        by_cases hkey : pyLower t = k
        · subst hkey
          rcases not_and_or.mp hcond with h | h
          · exact absurd (by simpa using h) hk
          · have hc : seen.contains (pyLower t) := by simpa using h
            rw [if_pos hc, if_pos hc]
        · rw [List.filter_cons_of_neg (by simp [hkey])]

/-- C8: the suggestion pipeline's `[:limit]` truncation is applied after
de-duplication (`get_suggestions` is the untruncated pipeline followed by
`take limit`); the de-duplicated list is a first-occurrence-preserving
sublist of the hit titles, keyed on the lower-cased title; and the two
mixed-case hits of the spec example yield exactly the first-seen one. -/
theorem suggestion_dedup_truncation :
    (∀ pfx limit prim fb,
        get_suggestions pfx limit prim fb = (suggest_all pfx prim fb).take limit)
    ∧ (∀ pfx prim fb, ¬(pyStrip pfx).length < MIN_PREFIX_LENGTH →
        (dedupBy [] prim ≠ [] → suggest_all pfx prim fb = dedupBy [] prim)
        ∧ (dedupBy [] prim = [] → suggest_all pfx prim fb = dedupBy [] fb))
    ∧ (∀ seen l, List.Sublist (dedupBy seen l) l)
    ∧ (∀ k l, ¬k.isEmpty →
        (dedupBy [] l).filter (fun t => pyLower t == k)
          = (l.filter (fun t => pyLower t == k)).take 1)
    ∧ get_suggestions "te" 10 ["Test Trial", "test trial"] [] = ["Test Trial"] := by
  refine ⟨?_, ?_, fun seen l => dedupBy_sublist l seen, ?_, by decide⟩
  · intro pfx limit prim fb
    unfold get_suggestions suggest_all
    split
    · simp
    · rfl
  · intro pfx prim fb hlen
    have hfst : (suggestLoop prim [] []).1 = dedupBy [] prim := by
      simpa using suggestLoop_fst prim [] []
    constructor
    · intro hne
      unfold suggest_all
      rw [if_neg hlen]
      simp only [hfst]
      rw [if_neg (by simpa [List.isEmpty_iff] using hne)]
    · intro hnil
      unfold suggest_all
      rw [if_neg hlen]
      simp only [hfst, hnil]
      rw [suggestLoop_snd_of_dedup_nil prim [] [] hnil]
      have h2 : (suggestLoop fb [] []).1 = dedupBy [] fb := by
        simpa using suggestLoop_fst fb [] []
      simpa using h2
  · intro k l hk
    rw [dedupBy_filter k hk l []]
    simp

/-- C8 witness. -/
theorem suggestion_dedup_truncation_witness :
    get_suggestions "ca" 2 ["Cancer A", "cancer a", "Cancer B"] []
      = (suggest_all "ca" ["Cancer A", "cancer a", "Cancer B"] []).take 2
    ∧ suggest_all "ca" ["Cancer A", "cancer a", "Cancer B"] []
      = dedupBy [] ["Cancer A", "cancer a", "Cancer B"] :=
  ⟨suggestion_dedup_truncation.1 "ca" 2 ["Cancer A", "cancer a", "Cancer B"] [],
   (suggestion_dedup_truncation.2.1 "ca" ["Cancer A", "cancer a", "Cancer B"] []
      (by decide)).1 (by decide)⟩

/-- The check `pydEnroll` only lets non-negative bounds through. -/
theorem pydEnroll_nonneg : ∀ {x : Option (Option Int)} {o : Option Int},
    pydEnroll x = some o → ∀ n ∈ o, 0 ≤ n := by
  intro x o h
  match x with
  | none =>
      simp [pydEnroll] at h
      subst h
      simp
  | some none => simp [pydEnroll] at h
  | some (some n) =>
      by_cases hn : (0 : Int) ≤ n
      · simp [pydEnroll, hn] at h
        subst h
        simpa using hn
      · simp [pydEnroll, hn] at h

/-- Whatever `ExtractedEntities(**data)` constructs satisfies the pydantic
field constraints. -/
theorem mkExtractedEntities_valid {d : RawData} {e : ExtractedEntities}
    (h : mkExtractedEntities d = some e) : validEntities e := by
  unfold mkExtractedEntities at h
  cases hmin : pydEnroll d.enrollment_min with
  | none => rw [hmin] at h; simp at h
  | some emin =>
      cases hmax : pydEnroll d.enrollment_max with
      | none => rw [hmin, hmax] at h; simp at h
      | some emax =>
          rw [hmin, hmax] at h
          simp only [Option.some_bind] at h
          split at h
          · rename_i hconf
            cases h
            exact ⟨hconf.1, hconf.2,
              pydEnroll_nonneg hmin, pydEnroll_nonneg hmax⟩
          · cases h

/-- C1: `extract_entities` is total over its failure conditions.  A blank
query returns the 0.1-confidence ask-for-input structure without consulting
the external outcome at all; a reply failing every parse attempt returns the
0.3-confidence rephrase structure; an external-capability failure returns
confidence 0.0 with a clarification containing "temporarily unavailable";
any other unexpected failure returns confidence 0.0 with the generic
clarification; and on every input and every outcome the returned structure
satisfies the canonical-structure constraints — nothing escapes the
boundary. -/
theorem interpret_failure_policy :
    (∀ q o, pyStrip q = "" → extract_entities q o = emptyQueryFallback)
    ∧ (∀ q, pyStrip q ≠ "" → extract_entities q (.success none) = parseFailureFallback)
    ∧ (∀ q, pyStrip q ≠ "" → extract_entities q .apiError = apiErrorFallback)
    ∧ (∀ q, pyStrip q ≠ "" → extract_entities q .unexpectedError = unexpectedErrorFallback)
    ∧ emptyQueryFallback.confidence = 1/10
    ∧ emptyQueryFallback.clarification ≠ none
    ∧ parseFailureFallback.confidence = 3/10
    ∧ parseFailureFallback.clarification
        = some "I had trouble understanding your query. Could you rephrase it?"
    ∧ apiErrorFallback.confidence = 0
    ∧ (∃ a b, apiErrorFallback.clarification = some (a ++ "temporarily unavailable" ++ b))
    ∧ unexpectedErrorFallback.confidence = 0
    ∧ unexpectedErrorFallback.clarification ≠ none
    ∧ (∀ q o, validEntities (extract_entities q o)) := by
  refine ⟨?_, ?_, ?_, ?_, ?_, by decide, ?_, rfl, rfl, ?_, rfl, by decide, ?_⟩
  · intro q o hq
    unfold extract_entities
    rw [if_pos hq]
  · intro q hq
    simp [extract_entities, hq]
  · intro q hq
    simp [extract_entities, hq]
  · intro q hq
    simp [extract_entities, hq]
  · have h : emptyQueryFallback.confidence = ({ num := 1, den := 10 } : Rat) := rfl
    rw [h, Rat.mk'_eq_divInt, Rat.divInt_eq_div]
    norm_num
  · have h : parseFailureFallback.confidence = ({ num := 3, den := 10 } : Rat) := rfl
    rw [h, Rat.mk'_eq_divInt, Rat.divInt_eq_div]
    norm_num
  · exact ⟨"The search service is ", ". Please try again.", by decide⟩
  · intro q o
    unfold extract_entities
    split
    · decide
    · cases o with
      | success parsed =>
          cases parsed with
          | none => decide
          | some raw =>
              cases hmk : mkExtractedEntities (validate_and_normalize raw) with
              | none => simp [hmk]; decide
              | some e => simpa [hmk] using mkExtractedEntities_valid hmk
      | apiError => decide
      | unexpectedError => decide

/-- C1 witness. -/
theorem interpret_failure_policy_witness :
    extract_entities "  " ExtractOutcome.apiError = emptyQueryFallback
    ∧ extract_entities "asthma trials" (ExtractOutcome.success none) = parseFailureFallback
    ∧ extract_entities "asthma trials" ExtractOutcome.apiError = apiErrorFallback
    ∧ extract_entities "asthma trials" ExtractOutcome.unexpectedError = unexpectedErrorFallback :=
  ⟨interpret_failure_policy.1 "  " ExtractOutcome.apiError (by decide),
   interpret_failure_policy.2.1 "asthma trials" (by decide),
   interpret_failure_policy.2.2.1 "asthma trials" (by decide),
   interpret_failure_policy.2.2.2.1 "asthma trials" (by decide)⟩

/-- C10: a parsed reply carrying a negative enrollment bound survives
normalization (`int()` coercion succeeds), then fails the non-negativity
validation of the canonical-structure constructor; the resulting exception is
caught by the catch-all handler, so `extract_entities` returns the generic
unexpected-failure fallback — confidence 0.0, generic clarification, every
other extracted field lost. -/
theorem negative_enrollment_generic_fallback :
    ∀ q (raw : RawData) n, pyStrip q ≠ "" →
      (raw.enrollment_min = some (some n) ∨ raw.enrollment_max = some (some n)) →
      n < 0 →
      extract_entities q (.success (some raw)) = unexpectedErrorFallback
      ∧ unexpectedErrorFallback.confidence = 0
      ∧ unexpectedErrorFallback.clarification
          = some "An unexpected error occurred. Please try again."
      ∧ unexpectedErrorFallback.phase = none
      ∧ unexpectedErrorFallback.condition = none
      ∧ unexpectedErrorFallback.sponsor = none
      ∧ unexpectedErrorFallback.keyword = none
      ∧ unexpectedErrorFallback.location = none := by
  intro q raw n hq hbound hneg
  have hmk : mkExtractedEntities (validate_and_normalize raw) = none := by
    rcases hbound with hb | hb
    · have hpe : pydEnroll (validate_and_normalize raw).enrollment_min = none := by
        simp [validate_and_normalize, normEnroll, hb, pydEnroll, not_le.mpr hneg]
      unfold mkExtractedEntities
      rw [hpe]
      rfl
    · have hpe : pydEnroll (validate_and_normalize raw).enrollment_max = none := by
        simp [validate_and_normalize, normEnroll, hb, pydEnroll, not_le.mpr hneg]
      unfold mkExtractedEntities
      cases pydEnroll (validate_and_normalize raw).enrollment_min with
      | none => rfl
      | some emin => simp [hpe]
  refine ⟨?_, rfl, rfl, rfl, rfl, rfl, rfl, rfl⟩
  simp [extract_entities, hq, hmk]

/-- C10 witness. -/
theorem negative_enrollment_generic_fallback_witness :
    extract_entities "big asthma trials"
        (.success (some { condition := some "Asthma", enrollment_min := some (some (-5)) }))
      = unexpectedErrorFallback :=
  (negative_enrollment_generic_fallback "big asthma trials"
    { condition := some "Asthma", enrollment_min := some (some (-5)) } (-5)
    (by decide) (Or.inl rfl) (by decide)).1

end Vivpro
